import Mathlib

/-
Shallow embedding of src/fanova/fanova.py (class fANOVA) and proofs about it.

Numbers are modelled as exact rationals (the program computes in double
precision; none of the properties settled here depend on rounding).  The
source mixes Python-2 and Python-3 idioms: `dict.has_key` (Python 2 only) is
read as the membership test it denotes, and `/` is read as true division
(the reading the repository documentation takes; no theorem below depends on
the value of a division that the two readings disagree on).  Runtime errors
(IndexError, KeyError, NameError on an undefined local, AttributeError on a
missing attribute, RuntimeError) are made explicit in an error type, since
which error fires, and what state is left behind, is exactly what several of
the properties are about.  The trained pyrfr forest and numpy scalar
routines are external collaborators and enter as an explicit environment.
-/

namespace FanovaPy

/-- Python runtime errors that the embedded code can raise. -/
inductive PyError where
  | nameError (n : String)
  | attributeError (n : String)
  | indexError
  | keyError
  | valueError
  | runtimeError (m : String)
deriving DecidableEq

deriving instance DecidableEq for Except

/-- Greatest common divisor by Euclid's algorithm with structural fuel (the
pair sum at least halves every two steps, so the chosen fuel suffices).
Written this way so that every rational operation below evaluates by plain
definitional unfolding. -/
def gcdFuel : ℕ → ℕ → ℕ → ℕ
  | 0, a, b => a + b
  | _ + 1, 0, b => b
  | fuel + 1, a + 1, b => gcdFuel fuel (b % (a + 1)) (a + 1)

/-- Greatest common divisor. -/
def natGcd (a b : ℕ) : ℕ := gcdFuel (2 * (a + b) + 2) a b

/-- An exact rational: a normalized numerator/denominator pair (denominator
positive, fraction in lowest terms), standing in for the double-precision
floats of the program.  Every operation normalizes, so equality of values is
structural equality and all theorems below can be checked by evaluation. -/
structure PyRat where
  num : ℤ
  den : ℕ
deriving DecidableEq

/-- The normalized rational n / d.  A zero d yields 0; this convention is only
exercised where explicitly noted. -/
def mkPyRat (n d : ℤ) : PyRat :=
  if d = 0 then ⟨0, 1⟩
  else
    let n1 : ℤ := if d < 0 then -n else n
    let d1 : ℕ := d.natAbs
    let g : ℕ := natGcd n1.natAbs d1
    ⟨n1 / (g : ℤ), d1 / g⟩

instance (n : ℕ) : OfNat PyRat n := ⟨⟨(n : ℤ), 1⟩⟩

/-- The rational of a natural number. -/
def PyRat.ofNat (n : ℕ) : PyRat := ⟨(n : ℤ), 1⟩

instance : Add PyRat :=
  ⟨fun a b => mkPyRat (a.num * (b.den : ℤ) + b.num * (a.den : ℤ)) ((a.den : ℤ) * (b.den : ℤ))⟩

instance : Sub PyRat :=
  ⟨fun a b => mkPyRat (a.num * (b.den : ℤ) - b.num * (a.den : ℤ)) ((a.den : ℤ) * (b.den : ℤ))⟩

instance : Mul PyRat := ⟨fun a b => mkPyRat (a.num * b.num) ((a.den : ℤ) * (b.den : ℤ))⟩

instance : Div PyRat := ⟨fun a b => mkPyRat (a.num * (b.den : ℤ)) ((a.den : ℤ) * b.num)⟩

instance : Neg PyRat := ⟨fun a => ⟨-a.num, a.den⟩⟩

instance : LE PyRat := ⟨fun a b => a.num * (b.den : ℤ) ≤ b.num * (a.den : ℤ)⟩

instance : LT PyRat := ⟨fun a b => a.num * (b.den : ℤ) < b.num * (a.den : ℤ)⟩

instance (a b : PyRat) : Decidable (a ≤ b) :=
  inferInstanceAs (Decidable (a.num * (b.den : ℤ) ≤ b.num * (a.den : ℤ)))

instance (a b : PyRat) : Decidable (a < b) :=
  inferInstanceAs (Decidable (a.num * (b.den : ℤ) < b.num * (a.den : ℤ)))

instance : Max PyRat := ⟨fun a b => if a ≤ b then b else a⟩

instance : Min PyRat := ⟨fun a b => if a ≤ b then a else b⟩

/-- Natural powers, as in np.power(x, 2). -/
def PyRat.pow (a : PyRat) : ℕ → PyRat
  | 0 => 1
  | n + 1 => PyRat.pow a n * a

instance : HPow PyRat ℕ PyRat := ⟨PyRat.pow⟩

/-- Python list subscription l[i] for a nonnegative index: IndexError out of range. -/
def pyGet {α : Type} (l : List α) (i : ℕ) : Except PyError α :=
  match l.get? i with
  | some x => Except.ok x
  | none => Except.error PyError.indexError

/-- Python list element assignment l[i] = v (numpy array assignment included). -/
def pySet {α : Type} (l : List α) (i : ℕ) (v : α) : Except PyError (List α) :=
  if i < l.length then Except.ok (l.set i v) else Except.error PyError.indexError

/-- Python range(s, s+n), in order. -/
def upto (s n : ℕ) : List ℕ :=
  match n with
  | 0 => []
  | m + 1 => s :: upto (s + 1) m

/-- itertools.combinations(l, k): k-element subsequences of l, in Python's order. -/
def combinations {α : Type} : ℕ → List α → List (List α)
  | 0, _ => [[]]
  | _ + 1, [] => []
  | k + 1, x :: xs => (combinations k xs).map (fun c => x :: c) ++ combinations (k + 1) xs

/-- itertools.product of a list of lists, in Python's order. -/
def itProduct {α : Type} : List (List α) → List (List α)
  | [] => [[]]
  | xs :: rest => xs.flatMap (fun x => (itProduct rest).map (fun c => x :: c))

/-- Line 166: (1/2)*(var_splits[1:] + var_splits[:-1]), the elementwise mean of
consecutive entries.  (Under a strict Python-2 reading 1/2 is 0; no theorem in
this file evaluates this function on a list with more than one element, so the
two readings agree everywhere it is used below.) -/
def consecMids (xs : List PyRat) : List PyRat :=
  List.zipWith (fun a b => (1 / 2 : PyRat) * (b + a)) xs xs.tail

/-- Line 167: var_splits[1:] - var_splits[:-1], the consecutive differences. -/
def consecDiffs (xs : List PyRat) : List PyRat :=
  List.zipWith (fun a b => b - a) xs xs.tail

/-- np.prod over a list of rationals. -/
def npProd (xs : List PyRat) : PyRat := xs.foldl (fun a x => a * x) 1

/-- A ConfigSpace hyperparameter as the code consumes it: either a
UniformFloatHyperparameter with bounds or a CategoricalHyperparameter with a
number of choices; both carry a name. -/
inductive PDesc where
  | continuous (name : String) (lower upper : PyRat)
  | categorical (name : String) (numChoices : ℕ)
deriving DecidableEq

/-- The name attribute of a hyperparameter. -/
def PDesc.name : PDesc → String
  | PDesc.continuous n _ _ => n
  | PDesc.categorical n _ => n

/-- Lines 136-142: the val_mins/val_maxs tables, paired; None for categoricals. -/
def paramBounds (ps : List PDesc) : List (Option (PyRat × PyRat)) :=
  ps.map (fun p =>
    match p with
    | PDesc.continuous _ lo hi => some (lo, hi)
    | PDesc.categorical _ _ => none)

/-- Lines 146-153: the list var_splits of augmented per-dimension split lists,
[val_mins[i]] + tree_split_values[i] + [val_maxs[i]] for continuous dimensions
and the raw list for categoricals.  (The loop on line 158 then rebinds the
name var_splits and this list is never read.) -/
def augmentedSplits (bounds : List (Option (PyRat × PyRat))) (tsv : List (List PyRat)) :
    Except PyError (List (List PyRat)) :=
  (upto 0 tsv.length).foldlM
    (fun acc i => do
      let raw ← pyGet tsv i
      let b ← pyGet bounds i
      match b with
      | none => pure (acc ++ [raw])
      | some lohi => pure (acc ++ [[lohi.1] ++ raw ++ [lohi.2]]))
    []

/-- Lines 156-169: midpoints and sizes for one tree.  The loop head on line 158
is `for i, var_splits in enumerate(tree_split_values)`, so var_splits here is
the RAW per-dimension threshold list tree_split_values[i], not the augmented
list built on lines 146-153. -/
def treeMidpointsSizes (bounds : List (Option (PyRat × PyRat))) (tsv : List (List PyRat)) :
    Except PyError (List (List PyRat) × List (List PyRat)) :=
  tsv.enum.foldlM
    (fun acc iv => do
      let varSplits := iv.2
      let b ← pyGet bounds iv.1
      match b with
      | none =>
          pure (acc.1 ++ [varSplits], acc.2 ++ [List.replicate varSplits.length (1 : PyRat)])
      | some _ =>
          pure (acc.1 ++ [consecMids varSplits], acc.2 ++ [consecDiffs varSplits]))
    ([], [])

/-- Lines 144-173, one tree: the augmented lists are computed (146-153), then
shadowed and discarded by the loop of line 158, and the midpoint/size grids are
produced from the raw thresholds. -/
def buildTreeGrid (bounds : List (Option (PyRat × PyRat))) (tsv : List (List PyRat)) :
    Except PyError (List (List PyRat) × List (List PyRat)) := do
  let _varSplits ← augmentedSplits bounds tsv
  treeMidpointsSizes bounds tsv

/-- Lines 144-173, all trees of the forest. -/
def buildAllGrids (bounds : List (Option (PyRat × PyRat))) (fsv : List (List (List PyRat))) :
    Except PyError (List (List (List PyRat)) × List (List (List PyRat))) :=
  fsv.foldlM
    (fun acc tsv => do
      let g ← buildTreeGrid bounds tsv
      pure (acc.1 ++ [g.1], acc.2 ++ [g.2]))
    ([], [])

/-- Modelled from the spec (sections 3 and 4.1): the elementwise mean of
consecutive augmented split points. -/
def specConsecMids (xs : List PyRat) : List PyRat :=
  List.zipWith (fun a b => (a + b) / 2) xs xs.tail

/-- Modelled from the spec (sections 3 and 4.1): per-tree midpoints and sizes
computed from the AUGMENTED threshold lists: for a continuous dimension the
lower bound is prepended and the upper bound appended to the raw thresholds
and midpoints/sizes come from consecutive pairs of that augmented list; for a
categorical dimension the raw values with unit sizes.  This is the comparison
definition for the grid-construction claim; the code's own computation is
treeMidpointsSizes. -/
def specTreeMidpointsSizes (bounds : List (Option (PyRat × PyRat))) (tsv : List (List PyRat)) :
    Except PyError (List (List PyRat) × List (List PyRat)) := do
  let aug ← augmentedSplits bounds tsv
  aug.enum.foldlM
    (fun acc iv => do
      let b ← pyGet bounds iv.1
      match b with
      | none =>
          pure (acc.1 ++ [iv.2], acc.2 ++ [List.replicate iv.2.length (1 : PyRat)])
      | some _ =>
          pure (acc.1 ++ [specConsecMids iv.2], acc.2 ++ [consecDiffs iv.2]))
    ([], [])

/-- The memo dictionary self.param_dic['parameters']: an insertion-ordered map
from dimension tuples to stored entries.  An entry's value is the
'MarginalVarianceContribution' field; `none` models an entry dict created on
line 232 whose 'MarginalVarianceContribution' key has not (yet) been written
(the 'Name' field of line 233 carries no information the program ever reads
back and is not recorded). -/
abbrev Memo := List (List ℕ × Option PyRat)

/-- Dictionary membership test and field read combined: dict.has_key(k) /
dict[k]. -/
def dicFind (m : Memo) (k : List ℕ) : Option (Option PyRat) :=
  (m.find? (fun p => p.1 == k)).map (fun p => p.2)

/-- Dictionary assignment dict[k] = v: overwrite in place (an OrderedDict keeps
the original position) or append a new key. -/
def dicSet (m : Memo) (k : List ℕ) (v : Option PyRat) : Memo :=
  if m.any (fun p => p.1 == k) then
    m.map (fun p => if p.1 == k then (k, v) else p)
  else m ++ [(k, v)]

/-- The external collaborators: the trained pyrfr forest (lines 222, 290 and
127), pyrfr.util's running statistics (line 229, a fresh accumulator pushed
exactly once per use) and numpy's square root (used by np.std, line 292).  A
query vector entry `none` is the np.nan sentinel meaning unconstrained. -/
structure Env where
  marginalMeanPrediction : List (Option PyRat) → List PyRat
  varUnbiasedImportance : PyRat → PyRat → PyRat
  sqrt : PyRat → PyRat
  allSplitValues : List ℕ → List (List (List PyRat))

/-- The attributes of a constructed fANOVA object that the methods read or
write. -/
structure FanovaState where
  numTrees : ℕ
  csParams : List PDesc
  allMidpoints : List (List (List PyRat))
  allSizes : List (List (List PyRat))
  paramDic : Memo
deriving DecidableEq

/-- Sequential loop with threaded state and Python exceptions: runs the body on
each element in order and stops at the first raised error, returning the state
at that moment. -/
def foldE {β σ : Type} (step : β → σ → σ × Except PyError Unit) :
    List β → σ → σ × Except PyError Unit
  | [], s => (s, Except.ok ())
  | x :: xs, s =>
    match step x s with
    | (s1, Except.ok ()) => foldE step xs s1
    | (s1, Except.error e) => (s1, Except.error e)

/-- Local state of the grid-point loop of lines 217-261 inside one tree
iteration, together with the threaded memo table and a count of ensemble
queries (calls to the_forest.marginal_mean_prediction) issued so far in the
whole get_marginal call. -/
structure PtState where
  sample : List (Option PyRat)
  wSum : PyRat
  wSS : PyRat
  prevFraqExp : PyRat
  memo : Memo
  queries : ℕ
deriving DecidableEq

/-- Lines 217-261: body of `for i, points in enumerate(midpoints)`.  Here
dimensions is one tuple from it.combinations(dim_list, k) (so
dimensions.length = k), dimHelper is the list built on line 210 (equal to
dimensions), and intervalSizes is the product built on line 212.  For k = 1
the branch of lines 226-234 runs: a fresh running-statistics accumulator is
pushed once and its variance_unbiased_importance added (the weightedSum
updates are commented out in the source, so weightedSum stays 0), and the
entry is stored under the tuple: line 232 creates the entry dict, line 233
reads self.cs_params[dim].name (dim is the leftover loop variable of line 207,
i.e. the last element of dimensions; an out-of-range dim raises IndexError
leaving the entry without its value field), line 234 stores the value.  For
k >= 2 the branch of lines 236-261 runs and always terminates in a NameError:
line 257 reads the name thisTreeTotalVar, which is bound nowhere. -/
def gridPointStep (env : Env) (st : FanovaState) (dimList dimensions dimHelper : List ℕ)
    (intervalSizes : List (List PyRat)) (k tree : ℕ) (ip : ℕ × List PyRat) (s : PtState) :
    PtState × Except PyError Unit :=
  let i := ip.1
  let points := ip.2
  -- lines 219-220: write the point's coordinates into sample
  match (upto 0 points.length).foldlM
      (fun smp j => do
        let d ← pyGet dimHelper j
        let v ← pyGet points j
        pySet smp d (some v)) s.sample with
  | Except.error e => (s, Except.error e)
  | Except.ok sample1 =>
    -- lines 222-223: one ensemble query, then indexing the per-tree predictions
    let pred := env.marginalMeanPrediction sample1
    let s1 := { s with sample := sample1, queries := s.queries + 1 }
    match pyGet pred tree with
    | Except.error e => (s1, Except.error e)
    | Except.ok marg =>
      if dimensions.length = 1 then
        -- lines 226-234
        match dimensions.getLast? with
        | none => (s1, Except.error (PyError.nameError "dim"))
        | some dim =>
          match (do
              let srows ← pyGet st.allSizes tree
              let srow ← pyGet srows dim
              pyGet srow i) with
          | Except.error e => (s1, Except.error e)
          | Except.ok sz =>
            let wSS1 := s1.wSS + env.varUnbiasedImportance marg sz
            let thisMVC := wSS1 - s1.wSum ^ 2
            let s2 := { s1 with wSS := wSS1, memo := dicSet s1.memo dimensions none }
            match pyGet st.csParams dim with
            | Except.error e => (s2, Except.error e)
            | Except.ok _hp =>
              ({ s2 with memo := dicSet s2.memo dimensions (some thisMVC) }, Except.ok ())
      else
        -- lines 236-257
        match pyGet intervalSizes i with
        | Except.error e => (s1, Except.error e)
        | Except.ok iszs =>
          let w := npProd iszs
          let wSum1 := s1.wSum + marg * w
          let wSS1 := s1.wSS + marg ^ 2 * w
          let thisMVC := wSS1 - wSum1 ^ 2
          let s2 := { s1 with wSum := wSum1, wSS := wSS1 }
          -- lines 241-253: collect the lower-order contributions to subtract
          let keysE : Except PyError (List (List ℕ)) :=
            if 2 < dimensions.length then
              (upto 0 points.length).foldlM
                (fun acc i2 => do
                  let key ← pyGet (combinations (k - 1) dimList) i2
                  pure (acc ++ [key])) []
            else
              (upto 0 points.length).foldlM
                (fun acc i2 => do
                  let d ← pyGet dimHelper i2
                  pure (acc ++ [[d]])) []
          match keysE with
          | Except.error e => (s2, Except.error e)
          | Except.ok keys =>
            match keys.foldlM
                (fun acc key =>
                  match dicFind s2.memo key with
                  | some (some v) => Except.ok (acc ++ [v])
                  | some none => Except.error PyError.keyError
                  | none => Except.error PyError.keyError) ([] : List PyRat) with
            | Except.error e => (s2, Except.error e)
            | Except.ok contribs =>
              let _corrected := contribs.foldl (fun a c => a - c) thisMVC
              -- line 257: totalFractionsExplained reads the undefined name thisTreeTotalVar
              (s2, Except.error (PyError.nameError "thisTreeTotalVar"))

/-- Lines 206-210: the loop `for dim in dimensions` collecting
combi_midpoints, sizes and dim_helper, with the per-iteration subscripts of
self.all_midpoints[tree][dim] and self.all_sizes[tree][dim] made explicit. -/
def collectRows (st : FanovaState) (tree : ℕ) (treeRows : List (List PyRat)) :
    List ℕ → List (List PyRat) × List (List PyRat) × List ℕ →
    Except PyError (List (List PyRat) × List (List PyRat) × List ℕ)
  | [], acc => Except.ok acc
  | dim :: ds, acc =>
    match pyGet treeRows dim with
    | Except.error e => Except.error e
    | Except.ok mrow =>
      match pyGet st.allSizes tree with
      | Except.error e => Except.error e
      | Except.ok srows =>
        match pyGet srows dim with
        | Except.error e => Except.error e
        | Except.ok srow =>
          collectRows st tree treeRows ds (acc.1 ++ [mrow], acc.2.1 ++ [srow], acc.2.2 ++ [dim])

/-- Lines 202-216 plus the grid-point loop: body of
`for tree in range(len(self.all_midpoints))`.  Lines 211-212 form the
Cartesian products; lines 203 and 213 make sample a NaN-filled vector of the
tree's dimensionality. -/
def treeStep (env : Env) (st : FanovaState) (dimList dimensions : List ℕ) (k : ℕ)
    (tree : ℕ) (ms : Memo × ℕ) : (Memo × ℕ) × Except PyError Unit :=
  match pyGet st.allMidpoints tree with
  | Except.error e => (ms, Except.error e)
  | Except.ok treeRows =>
    match collectRows st tree treeRows dimensions ([], [], []) with
    | Except.error e => (ms, Except.error e)
    | Except.ok acc3 =>
      let midpoints := itProduct acc3.1
      let intervalSizes := itProduct acc3.2.1
      let dimHelper := acc3.2.2
      let init : PtState :=
        { sample := List.replicate treeRows.length none, wSum := 0, wSS := 0,
          prevFraqExp := 0, memo := ms.1, queries := ms.2 }
      match foldE (gridPointStep env st dimList dimensions dimHelper intervalSizes k tree)
          midpoints.enum init with
      | (s1, r) => ((s1.memo, s1.queries), r)

/-- Lines 197-261: body of `for dimensions in tuple(it.combinations(dim_list, k))`.
On a memo hit (lines 199-200) the stored value is read into a local and
nothing else happens; otherwise the tree loop runs. -/
def dimsStep (env : Env) (st : FanovaState) (dimList : List ℕ) (k : ℕ)
    (dimensions : List ℕ) (ms : Memo × ℕ) : (Memo × ℕ) × Except PyError Unit :=
  match dicFind ms.1 dimensions with
  | some (some _v) => (ms, Except.ok ())
  | some none => (ms, Except.error PyError.keyError)
  | none => foldE (treeStep env st dimList dimensions k) (upto 0 st.allMidpoints.length) ms

/-- Lines 176-264, get_marginal(dim_list): returns the final memo table, the
number of ensemble queries issued, and the outcome.  The body of the outer
`for k in range(1, K+1)` loop unconditionally executes `return self.param_dict`
(line 262, indented inside that loop) at the end of its FIRST iteration; the
object's attribute is named param_dic, so this raises AttributeError — no call
returns normally and k >= 2 is never reached.  For an empty dim_list the loop
body never runs and the for-else of lines 263-264 reads the never-assigned
local totalFractionsExplained, raising NameError. -/
def getMarginal (env : Env) (st : FanovaState) (dimList : List ℕ) :
    Memo × ℕ × Except PyError PyRat :=
  if dimList.length = 0 then
    (st.paramDic, 0, Except.error (PyError.nameError "totalFractionsExplained"))
  else
    match foldE (dimsStep env st dimList 1) (combinations 1 dimList) (st.paramDic, 0) with
    | (ms, Except.ok ()) => (ms.1, ms.2, Except.error (PyError.attributeError "param_dict"))
    | (ms, Except.error e) => (ms.1, ms.2, Except.error e)

/-- np.mean of a list (division by zero, for the empty list, yields 0 here
where numpy yields nan; no property below depends on that value). -/
def npMean (xs : List PyRat) : PyRat :=
  xs.foldl (fun a x => a + x) 0 / PyRat.ofNat xs.length

/-- np.std of a list: square root of the mean squared deviation. -/
def npStd (env : Env) (xs : List PyRat) : PyRat :=
  env.sqrt (npMean (xs.map (fun x => (x - npMean xs) ^ 2)))

/-- Whether an Except is a success. -/
def exceptIsOk {α : Type} : Except PyError α → Bool
  | Except.ok _ => true
  | Except.error _ => false

/-- Lines 288-289: the loop writing the given values into the sample vector,
sample[dimlist[i]] = valuesToPredict[i]. -/
def fillSample (dimlist : List ℕ) (values : List PyRat) (sample : List (Option PyRat)) :
    Except PyError (List (Option PyRat)) :=
  (upto 0 dimlist.length).foldlM
    (fun smp i => do
      let d ← pyGet dimlist i
      let v ← pyGet values i
      pySet smp d (some v))
    sample

/-- Lines 267-292, get_marginal_for_values(dimlist, valuesToPredict): returns
the (unchanged) object state, the number of ensemble queries issued, and the
outcome.  num_dims is len(self.all_midpoints[0]) (line 285, IndexError when
the forest has no trees); the loop of lines 288-289 writes the given values
into a NaN-filled sample; line 290 issues the single ensemble query; line 292
returns the mean and standard deviation across trees.  No attribute of the
object is assigned anywhere in the method. -/
def getMarginalForValues (env : Env) (st : FanovaState) (dimlist : List ℕ)
    (values : List PyRat) : FanovaState × ℕ × Except PyError (PyRat × PyRat) :=
  match pyGet st.allMidpoints 0 with
  | Except.error e => (st, 0, Except.error e)
  | Except.ok row0 =>
    match fillSample dimlist values (List.replicate row0.length (none : Option PyRat)) with
    | Except.error e => (st, 0, Except.error e)
    | Except.ok sample =>
      let preds := env.marginalMeanPrediction sample
      (st, 1, Except.ok (npMean preds, npStd env preds))

/-- Python tuple comparison a <= b on (value, dim_a, dim_b) triples,
lexicographic. -/
def tupleLe (a b : PyRat × ℕ × ℕ) : Bool :=
  if a.1 < b.1 then true
  else if b.1 < a.1 then false
  else if a.2.1 < b.2.1 then true
  else if b.2.1 < a.2.1 then false
  else a.2.2 ≤ b.2.2

/-- Stable insertion of x into a list sorted by le. -/
def insertLe {α : Type} (le : α → α → Bool) (x : α) : List α → List α
  | [] => [x]
  | y :: ys => if le x y then x :: y :: ys else y :: insertLe le x ys

/-- Stable sort by le (extensionally Python's sorted). -/
def isort {α : Type} (le : α → α → Bool) (l : List α) : List α :=
  l.foldr (insertLe le) []

/-- Lines 294-317, get_most_important_pairwise_marginals(n): every pair of
dimension indices is passed to get_marginal (line 311), which threads the memo
table and may raise; line 314 sorts the (performance, dim_a, dim_b) triples
with sorted(..., reverse=True), i.e. descending lexicographically (ties in the
performance broken by DESCENDING pair index); line 315 keeps the first n and
drops the performance. -/
def getMostImportantPairwiseMarginals (env : Env) (st : FanovaState) (n : ℕ) :
    FanovaState × ℕ × Except PyError (List (ℕ × ℕ)) :=
  let dims := upto 0 st.csParams.length
  let step := fun (combi : List ℕ) (acc : FanovaState × ℕ × List (PyRat × ℕ × ℕ)) =>
    let r := getMarginal env acc.1 combi
    let st1 := { acc.1 with paramDic := r.1 }
    let q1 := acc.2.1 + r.2.1
    match r.2.2 with
    | Except.error e => ((st1, q1, acc.2.2), Except.error e)
    | Except.ok v =>
      match pyGet combi 0, pyGet combi 1 with
      | Except.ok a, Except.ok b => ((st1, q1, acc.2.2 ++ [(v, a, b)]), Except.ok ())
      | _, _ => ((st1, q1, acc.2.2), Except.error PyError.indexError)
  match foldE step (combinations 2 dims) (st, 0, []) with
  | (acc, Except.error e) => (acc.1, acc.2.1, Except.error e)
  | (acc, Except.ok ()) =>
    let sortedT := isort (fun a b => tupleLe b a) acc.2.2
    (acc.1, acc.2.1, Except.ok ((sortedT.take n).map (fun t => (t.2.1, t.2.2))))

/-- Modelled from the spec (section 4.2): the marginal evaluator for one tree
and one dimension subset: enumerate the Cartesian midpoint grid, weight each
cell by the product of its interval sizes, accumulate weightedSum,
weightedSumOfSquares and totalWeight, and return the weighted mean and the
biased weighted variance clamped to be nonnegative; a zero totalWeight is a
degenerate-subset error.  This is the comparison definition for the marginal
evaluation claim; the code's own computation is inside gridPointStep. -/
def specMarginalMeanVar (env : Env) (st : FanovaState) (tree : ℕ) (dims : List ℕ) :
    Except PyError (PyRat × PyRat) := do
  let treeRows ← pyGet st.allMidpoints tree
  let sizeRows ← pyGet st.allSizes tree
  let mrows ← dims.foldlM (fun acc d => do
    let r ← pyGet treeRows d
    pure (acc ++ [r])) ([] : List (List PyRat))
  let srows ← dims.foldlM (fun acc d => do
    let r ← pyGet sizeRows d
    pure (acc ++ [r])) ([] : List (List PyRat))
  let pts := itProduct mrows
  let szs := itProduct srows
  let acc ← (pts.zip szs).foldlM
    (fun acc psz => do
      let w := npProd psz.2
      let sample ← (psz.1.zip dims).foldlM
        (fun smp cv => pySet smp cv.2 (some cv.1))
        (List.replicate treeRows.length (none : Option PyRat))
      let marg ← pyGet (env.marginalMeanPrediction sample) tree
      pure (acc.1 + w * marg, acc.2.1 + w * marg ^ 2, acc.2.2 + w))
    ((0, 0, 0) : PyRat × PyRat × PyRat)
  if acc.2.2 = 0 then Except.error PyError.valueError
  else
    let mean := acc.1 / acc.2.2
    pure (mean, max 0 (acc.2.1 / acc.2.2 - mean ^ 2))

/-- Observable side effects of the constructor that the early-error property is
about: fitting the random forest (line 113) and building the split grid (lines
127-173). -/
inductive InitEffect where
  | trainForest
  | gridBuilt
deriving DecidableEq

/-- np.min(X, axis=0): columnwise minima (rows zipped, so ragged input
truncates where numpy would object; the inputs used below are rectangular). -/
def npMinCols (x : List (List PyRat)) : List PyRat :=
  match x with
  | [] => []
  | r :: rs => rs.foldl (fun acc row => List.zipWith min acc row) r

/-- np.max(X, axis=0): columnwise maxima. -/
def npMaxCols (x : List (List PyRat)) : List PyRat :=
  match x with
  | [] => []
  | r :: rs => rs.foldl (fun acc row => List.zipWith max acc row) r

/-- np.max of a 1-d array; empty input is a ValueError. -/
def npMax : List PyRat → Except PyError PyRat
  | [] => Except.error PyError.valueError
  | x :: xs => Except.ok (xs.foldl max x)

/-- np.min of a 1-d array. -/
def npMin : List PyRat → Except PyError PyRat
  | [] => Except.error PyError.valueError
  | x :: xs => Except.ok (xs.foldl min x)

/-- Column i of the data matrix, X[:, i]. -/
def colVals (x : List (List PyRat)) (i : ℕ) : Except PyError (List PyRat) :=
  x.foldlM (fun acc row => do
    let v ← pyGet row i
    pure (acc ++ [v])) []

/-- X.shape[1]: the column count; IndexError on a zero-row matrix (whose numpy
shape is one-dimensional). -/
def nCols (x : List (List PyRat)) : Except PyError ℕ :=
  match x with
  | [] => Except.error PyError.indexError
  | r :: _ => Except.ok r.length

/-- Lines 58-61: the ConfigSpace built from the data when none is supplied: one
UniformFloatHyperparameter named "%i" per column, bounded by the column's
minimum and maximum. -/
def builtCS (x : List (List PyRat)) : List PDesc :=
  ((npMinCols x).zip (npMaxCols x)).enum.map
    (fun p => PDesc.continuous (toString p.1) p.2.1 p.2.2)

/-- Lines 69-78: the per-parameter data validation.  Note line 71 as written
compares np.min(X[:, i]) > lower (not <). -/
def validateData (x : List (List PyRat)) (cs : List PDesc) : Except PyError Unit :=
  (upto 0 cs.length).foldlM
    (fun _ i => do
      let p ← pyGet cs i
      let col ← colVals x i
      match p with
      | PDesc.continuous _ lo hi => do
        let mx ← npMax col
        let mn ← npMin col
        if mx > hi ∨ mn > lo then
          Except.error (PyError.runtimeError
            "Some sample values from X are not in the given interval")
        else pure ()
      | PDesc.categorical _ c =>
        let u := col.dedup.length
        if u > c then
          Except.error (PyError.runtimeError
            "There are some categoricals missing in the config space specification")
        else if u < c then
          Except.error (PyError.runtimeError
            "There are too many categoricals specified in the config space")
        else pure ())
    ()

/-- Lines 83-88: the types array (cardinality for categoricals, 0 otherwise). -/
def typesOf (ps : List PDesc) : List ℕ :=
  ps.map (fun p =>
    match p with
    | PDesc.categorical _ c => c
    | PDesc.continuous _ _ _ => 0)

/-- Lines 120-173: the tail of the constructor once a forest is available:
param_dic starts empty, the forest's split values are requested (line 127) and
the midpoint/size grids are built. -/
def finishInit (env : Env) (cs : List PDesc) (types : List ℕ)
    (effects : List InitEffect) (numTrees : ℕ) :
    List InitEffect × Except PyError FanovaState :=
  let fsv := env.allSplitValues types
  match buildAllGrids (paramBounds cs) fsv with
  | Except.error e => (effects, Except.error e)
  | Except.ok g =>
    (effects ++ [InitEffect.gridBuilt],
      Except.ok { numTrees := numTrees, csParams := cs, allMidpoints := g.1,
                  allSizes := g.2, paramDic := [] })

/-- Lines 63-113: the constructor body once a ConfigSpace object exists.  Line
67 reads X.shape, raising AttributeError when X is None; lines 92-95 demand
data when no forest is supplied, and line 113 fits the forest (recorded as an
effect; the pyrfr training itself is an external collaborator). -/
def initWithCS (env : Env) (x0 : Option (List (List PyRat))) (y0 : Option (List PyRat))
    (cs : List PDesc) (forestGiven : Bool) (numTrees : ℕ) :
    List InitEffect × Except PyError FanovaState :=
  match x0 with
  | none => ([], Except.error (PyError.attributeError "shape"))
  | some x =>
    match nCols x with
    | Except.error e => ([], Except.error e)
    | Except.ok nc =>
      if nc ≠ cs.length then
        ([], Except.error (PyError.runtimeError
          "Number of parameters in config space do not match input X"))
      else
        match validateData x cs with
        | Except.error e => ([], Except.error e)
        | Except.ok () =>
          let types := typesOf cs
          if forestGiven then
            finishInit env cs types [] numTrees
          else
            match y0 with
            | none => ([], Except.error (PyError.runtimeError
                "If no pyrfr forest is present, you have to provide data for X and Y."))
            | some _y => finishInit env cs types [InitEffect.trainForest] numTrees

/-- Lines 49-173, fANOVA.__init__: returns the effects that took place and the
outcome.  Lines 51-54 run first: with no ConfigSpace and missing X or Y the
constructor raises RuntimeError immediately, before the data checks, before
any forest fitting and before the split grid exists. -/
def fanovaInit (env : Env) (x0 : Option (List (List PyRat))) (y0 : Option (List PyRat))
    (cs0 : Option (List PDesc)) (forestGiven : Bool) (numTrees : ℕ) :
    List InitEffect × Except PyError FanovaState :=
  match cs0 with
  | none =>
    match x0, y0 with
    | some x, some y => initWithCS env (some x) (some y) (builtCS x) forestGiven numTrees
    | _, _ => ([], Except.error (PyError.runtimeError
        "If no ConfigSpace argument is given, you have to provide data for X and Y."))
  | some cs => initWithCS env x0 y0 cs forestGiven numTrees

/-- Concrete forest environment for evaluating the methods on small inputs:
the ensemble prediction for a query vector is (one tree returning) the sum of
its constrained coordinates, the variance_unbiased_importance of one pushed
pair (m, w) is m * m * w, the square root is immaterial, and one tree's split
values are fixed. -/
def envB : Env :=
  { marginalMeanPrediction := fun s => [s.foldl (fun a o => a + o.getD 0) 0],
    varUnbiasedImportance := fun m w => m * m * w,
    sqrt := fun q => q,
    allSplitValues := fun _ => [[[1/4, 3/4], [1/3]]] }

/-- A two-dimensional, one-tree object state with nonempty per-dimension grids
and an empty memo table (the methods under test read whatever grids the object
carries). -/
def stA : FanovaState :=
  { numTrees := 1,
    csParams := [PDesc.continuous "p0" 0 1, PDesc.continuous "p1" 0 1],
    allMidpoints := [[[1/2], [1/3]]],
    allSizes := [[[1/2], [2/3]]],
    paramDic := [] }

/-- A one-dimensional, one-tree object state whose single dimension has two
grid cells with distinct sizes 1/2 and 1/3, so the total weight 5/6 differs
from 1 and a missing weight normalization is observable. -/
def stC : FanovaState :=
  { numTrees := 1,
    csParams := [PDesc.continuous "p0" 0 1],
    allMidpoints := [[[1/4, 3/4]]],
    allSizes := [[[1/2, 1/3]]],
    paramDic := [] }

theorem combinations_zero {α : Type} (l : List α) : combinations 0 l = [[]] := by
  cases l <;> rfl

theorem combinations_one {α : Type} (x : α) (xs : List α) :
    combinations 1 (x :: xs) = [x] :: combinations 1 xs := by
  show (combinations 0 xs).map (fun c => x :: c) ++ combinations 1 xs =
    [x] :: combinations 1 xs
  rw [combinations_zero]
  rfl

/-- C1: the claim says the split grid of a continuous dimension is built from
the augmented threshold list (lower bound prepended, upper bound appended,
midpoints and sizes from consecutive augmented pairs).  In the code the loop
head on line 158 rebinds var_splits to the raw tree_split_values[i], so the
augmented lists of lines 146-153 are discarded and midpoints/sizes come from
the RAW thresholds: for bounds [0, 1] and the single raw threshold 1/2 the
code produces an empty midpoint list and an empty size list, where the
computation the claim describes gives midpoints 1/4, 3/4 and sizes 1/2, 1/2. -/
theorem c1_grid_built_from_raw_not_augmented :
    buildTreeGrid (paramBounds [PDesc.continuous "x" 0 1]) [[1/2]] =
      Except.ok ([[]], [[]]) ∧
    specTreeMidpointsSizes (paramBounds [PDesc.continuous "x" 0 1]) [[1/2]] =
      Except.ok ([[1/4, 3/4]], [[1/2, 1/2]]) := by
  constructor <;> rfl

/-- C7: the claim says every (tree, dimension) grid has equal-length midpoint
and size lists of length at least 1, a split-free dimension yielding a single
pair covering the whole range.  Because the code builds the grids from the raw
thresholds, a tree with no split on a continuous dimension gets an EMPTY
midpoint list and an empty size list, so the length lower bound of 1 fails. -/
theorem c7_split_free_dimension_gets_empty_grid :
    buildTreeGrid (paramBounds [PDesc.continuous "x" 0 1]) [[]] =
      Except.ok ([[]], [[]]) ∧ ¬ 1 ≤ ([] : List PyRat).length := by
  constructor
  · rfl
  · decide

/-- C2: the claim says the marginal evaluator accumulates weightedSum,
weightedSumOfSquares and totalWeight and returns mean = weightedSum/totalWeight
and variance = weightedSumOfSquares/totalWeight - mean^2 clamped to be >= 0.
The code accumulates no totalWeight anywhere, never divides, never clamps and
never returns: on a one-dimensional subset it stores the bare sum of
single-push variance_unbiased_importance values (here 7/32) and the call ends
in AttributeError, while the computation the claim describes yields mean 9/20
and clamped variance 3/50 on the same grid. -/
theorem c2_no_weight_normalization_no_clamp_no_return :
    getMarginal envB stC [0] =
      ([([0], some (7/32))], 2, Except.error (PyError.attributeError "param_dict")) ∧
    specMarginalMeanVar envB stC 0 [0] = Except.ok (9/20, 3/50) ∧
    (7/32 : PyRat) ≠ 3/50 := by
  refine ⟨by decide, by decide, by decide⟩

/-- C3: the claim says a second get_marginal call with the same subset returns
a bit-identical result with no ensemble queries, the memoized value being
returned.  In the code the memo hit does suppress the ensemble queries (the
second call below issues 0), but no call ever RETURNS anything: both calls end
in AttributeError on the misspelt attribute param_dict (line 262), so no
memoized value is ever returned to the caller. -/
theorem c3_memoized_value_read_but_never_returned :
    getMarginal envB stA [0] =
      ([([0], some (1/8))], 1, Except.error (PyError.attributeError "param_dict")) ∧
    getMarginal envB { stA with paramDic := [([0], some (1/8))] } [0] =
      ([([0], some (1/8))], 0, Except.error (PyError.attributeError "param_dict")) := by
  refine ⟨by decide, by decide⟩

/-- C4: the claim says the contribution operation returns the same value for
any two orderings of a dimension set, subsets being canonicalized (sorted)
before use as memo keys.  In the code no call returns a value at all (both
orderings end in AttributeError), no key is ever sorted (the order-1 keys are
stored in the order the caller listed the dimensions), and the pair key itself
is never stored under either ordering. -/
theorem c4_orderings_both_raise_no_canonical_key :
    getMarginal envB stA [0, 1] =
      ([([0], some (1/8)), ([1], some (2/27))], 2,
        Except.error (PyError.attributeError "param_dict")) ∧
    getMarginal envB stA [1, 0] =
      ([([1], some (2/27)), ([0], some (1/8))], 2,
        Except.error (PyError.attributeError "param_dict")) ∧
    dicFind [([0], some (1/8)), ([1], some (2/27))] [0, 1] = none ∧
    dicFind [([1], some (2/27)), ([0], some (1/8))] [1, 0] = none := by
  refine ⟨by decide, by decide, by decide, by decide⟩

/-- C5 counterexample: the claim says a request whose subset contains
duplicate indices fails with an invalid-subset error before any ensemble
query is issued.  For the duplicate subset (0, 0) the code issues an ensemble
query (the count below is 1, not 0): it.combinations(dim_list, 1) simply
yields the singleton twice, the first occurrence is evaluated against the
forest and the second is a memo hit, and the call then dies of AttributeError
rather than any validation error. -/
theorem c5_duplicate_indices_query_issued :
    getMarginal envB stA [0, 0] =
      ([([0], some (1/8))], 1, Except.error (PyError.attributeError "param_dict")) ∧
    (getMarginal envB stA [0, 0]).2.1 ≠ 0 := by
  refine ⟨by decide, by decide⟩

/-- C5 amended: an empty subset fails with NameError (on the never-assigned
local totalFractionsExplained) before any ensemble query, leaving the memo
unmodified; a subset whose first index is out of range for the (nonempty)
tree grid and not already memoized fails with IndexError before any ensemble
query, leaving the memo unmodified; duplicate indices are NOT rejected — the
repeated singleton is evaluated with an ensemble query (count 1) before the
call fails. -/
theorem c5_amended_invalid_subset_behavior (env : Env) (st : FanovaState) (d : ℕ)
    (ds : List ℕ) (row : List (List PyRat)) (rest : List (List (List PyRat)))
    (h1 : st.allMidpoints = row :: rest) (h2 : row.length ≤ d)
    (h3 : dicFind st.paramDic [d] = none) :
    getMarginal env st [] =
      (st.paramDic, 0, Except.error (PyError.nameError "totalFractionsExplained")) ∧
    getMarginal env st (d :: ds) = (st.paramDic, 0, Except.error PyError.indexError) ∧
    (getMarginal envB stA [0, 0]).2.1 = 1 := by
  refine ⟨by simp [getMarginal], ?_, by decide⟩
  have hd : row[d]? = none := List.getElem?_eq_none h2
  simp [getMarginal, combinations_one, foldE, dimsStep, treeStep, collectRows,
    h3, h1, upto, pyGet, hd]

/-- C5 amended, witness: the amended behavior at the concrete two-dimensional
state (out-of-range index 2, empty subset, duplicate subset (0, 0)). -/
theorem c5_amended_witness :
    getMarginal envB stA [] =
      (stA.paramDic, 0, Except.error (PyError.nameError "totalFractionsExplained")) ∧
    getMarginal envB stA [2] = (stA.paramDic, 0, Except.error PyError.indexError) ∧
    (getMarginal envB stA [0, 0]).2.1 = 1 :=
  c5_amended_invalid_subset_behavior envB stA 2 [] [[1/2], [1/3]] [] rfl (by decide) rfl

/-- C6: the claim says the pairwise ranking returns min(n, C(d, 2)) pairs
sorted by non-increasing contribution.  On any space with at least two
dimensions the very first get_marginal call raises AttributeError (line 262),
so get_most_important_pairwise_marginals returns nothing at all; on the
two-dimensional state it propagates the error after two ensemble queries. -/
theorem c6_pairwise_ranking_raises_attribute_error :
    getMostImportantPairwiseMarginals envB stA 10 =
      ({ stA with paramDic := [([0], some (1/8)), ([1], some (2/27))] }, 2,
        Except.error (PyError.attributeError "param_dict")) := by
  decide

/-- C8: the claim says a failed request leaves the memo table unmodified for
the requested key.  The request for the singleton (0,) on a fresh state fails
(AttributeError), yet the memo table now holds an entry under exactly the
requested key (0,): the store on lines 232-234 happens before the failing
return. -/
theorem c8_failed_request_still_writes_memo :
    stA.paramDic = [] ∧
    getMarginal envB stA [0] =
      ([([0], some (1/8))], 1, Except.error (PyError.attributeError "param_dict")) ∧
    dicFind (getMarginal envB stA [0]).1 [0] = some (some (1/8)) := by
  refine ⟨by decide, by decide, by decide⟩

/-- C9: get_marginal_for_values leaves the object state unchanged (no write to
the memo, the grids or any other attribute) and issues exactly one ensemble
query when it succeeds and none when it fails. -/
theorem c9_point_query_leaves_state_unchanged (env : Env) (st : FanovaState)
    (dimlist : List ℕ) (values : List PyRat) :
    (getMarginalForValues env st dimlist values).1 = st ∧
    (getMarginalForValues env st dimlist values).2.1 =
      (if exceptIsOk (getMarginalForValues env st dimlist values).2.2 then 1 else 0) := by
  cases h0 : pyGet st.allMidpoints 0 with
  | error e => simp [getMarginalForValues, h0, exceptIsOk]
  | ok row0 =>
    cases h1 : fillSample dimlist values (List.replicate row0.length none) with
    | error e => simp [getMarginalForValues, h0, h1, exceptIsOk]
    | ok sample => simp [getMarginalForValues, h0, h1, exceptIsOk]

/-- C10: with no ConfigSpace supplied and X or Y missing, the constructor
raises RuntimeError demanding data immediately: the effect list is empty, so
no forest is fitted and no split grid is built. -/
theorem c10_missing_data_raises_before_any_work (env : Env)
    (x0 : Option (List (List PyRat))) (y0 : Option (List PyRat)) (fg : Bool) (nt : ℕ)
    (h : x0 = none ∨ y0 = none) :
    fanovaInit env x0 y0 none fg nt =
      ([], Except.error (PyError.runtimeError
        "If no ConfigSpace argument is given, you have to provide data for X and Y.")) := by
  rcases h with h | h
  · subst h; cases y0 <;> rfl
  · subst h; cases x0 <;> rfl

/-- C10 witness: the early RuntimeError at the concrete call with X and Y both
missing. -/
theorem c10_missing_data_witness :
    fanovaInit envB none none none false 16 =
      ([], Except.error (PyError.runtimeError
        "If no ConfigSpace argument is given, you have to provide data for X and Y.")) :=
  c10_missing_data_raises_before_any_work envB none none false 16 (Or.inl rfl)

end FanovaPy
